import Mathlib

/-!
Shallow embedding of the batched concurrent transfer engine of `app/pi_worker.py`
and the loop controller of `app/main.py`.

Modelling conventions:
* Python decimal amounts are modelled as exact rationals (`ℚ`); decimal literals
  such as `0.00001` denote the corresponding exact rational.
* Network interactions (Horizon account lookup, fee fetch, transaction
  submission) are modelled as an explicit environment `Env`: a run of the
  program corresponds to one choice of environment.  `asyncio.gather`
  returns its results in input order, so a phase of concurrently gathered
  per-seed coroutines is modelled by an order-preserving `map`; an exception
  raised by a gathered coroutine propagates out of the gather and is modelled
  by `Except.error`.
* Python `str` values are Lean `String`s; `f"..."` interpolation becomes
  string concatenation.
-/

namespace PiB

/-- Python's `round` on exact decimals: round half to even, at integer scale. -/
def pyRound (q : ℚ) : ℤ :=
  let f := ⌊q⌋
  let r := q - (f : ℚ)
  if r < 1/2 then f
  else if 1/2 < r then f + 1
  else if f % 2 = 0 then f else f + 1

/-- `round(x, 7)` from `pi_worker.py` line 41, on the exact-rational model. -/
def round7 (q : ℚ) : ℚ := (pyRound (q * 10000000) : ℚ) / 10000000

/-- One entry of the `balances` array of a Horizon account record:
an `asset_type` string paired with the (parsed) `balance` field. -/
abbrev BalanceEntry := String × ℚ

/-- The account record returned by `server.accounts().account_id(pk).call()`,
restricted to the field the code reads. -/
structure AccountRecord where
  balances : List BalanceEntry
deriving Repr

/-- Outcome of the balance query `server.accounts().account_id(pk).call()`:
a record, a `NotFoundError`, or any other raised exception (its message). -/
inductive BalanceResp where
  | ok (rec : AccountRecord)
  | notFound
  | error (msg : String)
deriving Repr

/-- The signed transaction blob built by `create_signed_transaction`
(lines 45-53 of `pi_worker.py`), keeping the fields the builder sets. -/
structure SignedTx where
  source : String
  destination : String
  amount : ℚ
  memo : String
  timeout : ℕ
  baseFee : ℤ
deriving Repr, DecidableEq

/-- The JSON body of a Horizon submission response, restricted to what
`submit_transaction` reads: presence of the `hash` key, the rendering of
`data.get("extras", \x7b\x7d).get("result_codes", \x7b\x7d)`, and the rendering of the
whole body (used in the incomplete-response message). -/
structure SubmitBody where
  hash : Option String
  resultCodes : String
  raw : String
deriving Repr, DecidableEq

/-- Outcome of `client.post(HORIZON_URL + "/transactions", ...)`: an HTTP
response whose body either parses to JSON (`Except.ok`) or fails to parse
(`Except.error` with the parse-error message), or a transport-level
exception raised by the post itself. -/
inductive SubmitResp where
  | httpResp (status : ℕ) (body : Except String SubmitBody)
  | transportError (msg : String)
deriving Repr

/-- The environment of one run: the remote ledger service and the
configuration constants.  `derive_keypair` (from `app/utils.py`, absent from
the source tree) is modelled from the spec: a pure deterministic seed→keypair
map that fails on a malformed credential; we keep only the public key.
`FEE_PERCENT` and `MINIMUM_BALANCE` come from `app/config.py` (also absent):
per the spec they are constants loaded once at process start, `FEE_PERCENT`
in `[0,1)` and `MINIMUM_BALANCE` a minimum reserve balance. -/
structure Env where
  derive_keypair : String → Except String String
  account_call : String → BalanceResp
  fetch_account_and_fee : String → Except String ℤ
  post_transactions : SignedTx → SubmitResp
  FEE_PERCENT : ℚ
  MINIMUM_BALANCE : ℚ

/-- `estimated_fee = 0.00001`, the constant on line 32 of `pi_worker.py`. -/
def estimated_fee : ℚ := 0.00001

/-- `batch_size = 6`, line 98 of `pi_worker.py`. -/
def batch_size : ℕ := 6

/-- `TRANSACTION_DELAY_SECONDS = 0.1`, line 14 of `pi_worker.py`. -/
def TRANSACTION_DELAY_SECONDS : ℚ := 0.1

/-- First `balance` whose `asset_type` is `"native"`, defaulting to `"0"`,
i.e. lines 26-30 of `pi_worker.py` (the string is parsed by `float`,
modelled as the rational itself). -/
def nativeBalance (balances : List BalanceEntry) : ℚ :=
  match balances.find? (fun b => b.1 == "native") with
  | some b => b.2
  | none => 0

/-- The message of line 34 of `pi_worker.py`:
`f"Insufficient balance (\x7bnative_balance\x7d) for amount (\x7bamount\x7d) + fee + reserve"`. -/
def insufficientMsg (native_balance amount : ℚ) : String :=
  "Insufficient balance (" ++ toString native_balance ++ ") for amount ("
    ++ toString amount ++ ") + fee + reserve"

/-- The balance gate of `create_signed_transaction` (the `try` block on
lines 24-38 of `pi_worker.py`): `some msg` when the gate stops the seed with
error message `msg`, `none` when the seed may proceed to building. -/
def gateCheck (env : Env) (pk : String) (amount : ℚ) : Option String :=
  match env.account_call pk with
  | .notFound => some "Account not found"
  | .error e => some ("Error checking balance: " ++ e)
  | .ok rec =>
    let native_balance := nativeBalance rec.balances
    if native_balance < amount + estimated_fee + env.MINIMUM_BALANCE then
      some (insufficientMsg native_balance amount)
    else none

/-- Per-seed phase-1 outcome: `(public key, optional signed blob, optional
error message)`, the triple returned by `create_signed_transaction`. -/
abbrev Triple := String × Option SignedTx × Option String

/-- `create_signed_transaction` (lines 21-55 of `pi_worker.py`).
`derive_keypair` runs outside any `try`, so its failure raises out of the
coroutine (`Except.error`).  The balance `try` is `gateCheck`; the second
`try` wraps `fetch_account_and_fee`, the builder and the signature, any of
whose failures become the seed's error message (line 54-55). -/
def create_signed_transaction (env : Env) (seed destination : String) (amount : ℚ) :
    Except String Triple :=
  match env.derive_keypair seed with
  | .error e => .error e
  | .ok pk =>
    match gateCheck env pk amount with
    | some err => .ok (pk, none, some err)
    | none =>
      let send_amount := round7 (amount - amount * env.FEE_PERCENT)
      match env.fetch_account_and_fee pk with
      | .error e => .ok (pk, none, some e)
      | .ok base_fee =>
          .ok (pk, some { source := pk, destination := destination,
                          amount := send_amount, memo := "PI Transfer",
                          timeout := 30, baseFee := base_fee }, none)

/-- `submit_transaction` (lines 58-75 of `pi_worker.py`): the body is parsed
before the status check; status 200 with a `hash` key is a success, status
200 without one is reported with the `Success:` prefix and an
incomplete-response note, any other status reports the extracted result
codes, and transport errors are caught last. -/
def submit_transaction (resp : SubmitResp) : String :=
  match resp with
  | .transportError e => "HTTP Error: " ++ e
  | .httpResp _ (.error json_error) => "Invalid JSON response: " ++ json_error
  | .httpResp status (.ok data) =>
    if status = 200 then
      match data.hash with
      | some h => "Success: " ++ h
      | none => "Success: incomplete response " ++ data.raw
    else
      "Failed: " ++ data.resultCodes

/-- `asyncio.gather` over fallible per-seed coroutines: results in input
order; a raised exception propagates out of the whole gather. -/
def gather : List (Except String Triple) → Except String (List Triple)
  | [] => .ok []
  | .error e :: _ => .error e
  | .ok t :: rest =>
    match gather rest with
    | .error e => .error e
    | .ok ts => .ok (t :: ts)

/-- Phase 2 of `process_batch` (line 82 of `pi_worker.py`): for each phase-1
triple, submit when a blob exists, otherwise `asyncio.sleep(0)` — a no-op
whose gathered value is Python `None`, modelled as `Option.none`. -/
def phase2 (env : Env) (signed : List Triple) : List (Option String) :=
  signed.map (fun t => t.2.1.map (fun tx => submit_transaction (env.post_transactions tx)))

/-- The fan-in loop of `process_batch` (lines 85-91 of `pi_worker.py`) on
the zipped phase-1/phase-2 lists; Python renders the `None` of a skipped
submission as the string `"None"`. -/
def fanIn (pairs : List (Triple × Option String)) : List String :=
  pairs.map (fun p =>
    match p with
    | ((pk, _, some err), _) => "Error for " ++ pk.take 5 ++ "...: " ++ err
    | ((pk, _, none), sub) =>
      "Success for " ++ pk.take 5 ++ "...: " ++
        (match sub with | some s => s | none => "None"))

/-- The per-seed composition of phase 1, phase 2 and fan-in: the single
result string a seed contributes when its batch completes normally
(`none` when its phase-1 coroutine raises). -/
def mergeResult (env : Env) (t : Triple) : String :=
  match t with
  | (pk, _, some err) => "Error for " ++ pk.take 5 ++ "...: " ++ err
  | (pk, some tx, none) =>
    "Success for " ++ pk.take 5 ++ "...: " ++ submit_transaction (env.post_transactions tx)
  | (pk, none, none) => "Success for " ++ pk.take 5 ++ "...: " ++ "None"

/-- The outcome `process_batch` records for one seed, when defined. -/
def seedOutcome (env : Env) (destination : String) (amount : ℚ) (seed : String) :
    Option String :=
  (create_signed_transaction env seed destination amount).toOption.map (mergeResult env)

/-- `process_batch` (lines 78-91 of `pi_worker.py`): gather phase 1, then
phase 2, then fan in by index.  An exception escaping the phase-1 gather
escapes `process_batch` itself. -/
def process_batch (env : Env) (seeds : List String) (destination : String) (amount : ℚ) :
    Except String (List String) :=
  match gather (seeds.map (fun s => create_signed_transaction env s destination amount)) with
  | .error e => .error e
  | .ok signed => .ok (fanIn (signed.zip (phase2 env signed)))

/-- One iteration of the batch loop of `process_all_seeds`
(lines 101-104 of `pi_worker.py`): the batch's result list, or the single
synthetic entry `f"Batch \x7bi // batch_size + 1\x7d failed: \x7bstr(e)\x7d"`. -/
def batchResult (env : Env) (destination : String) (amount : ℚ) (bIdx : ℕ)
    (batch : List String) : List String :=
  match process_batch env batch destination amount with
  | .ok r => r
  | .error e => ["Batch " ++ toString (bIdx + 1) ++ " failed: " ++ e]

/-- The batch loop of `process_all_seeds` (lines 99-106 of `pi_worker.py`):
`for i in range(0, len(seeds), batch_size)` over the slices
`seeds[i:i+batch_size]`, accumulating each batch's results in order.  The
fuel argument is an upper bound on the remaining length, instantiated with
`len(seeds)`; each iteration consumes at least one seed. -/
def processAllAux (env : Env) (destination : String) (amount : ℚ) :
    ℕ → ℕ → List String → List String
  | 0, _, _ => []
  | _ + 1, _, [] => []
  | fuel + 1, bIdx, s :: rest =>
    batchResult env destination amount bIdx ((s :: rest).take batch_size)
      ++ processAllAux env destination amount fuel (bIdx + 1) ((s :: rest).drop batch_size)

/-- `process_all_seeds` (lines 94-110 of `pi_worker.py`), as the ordered
result list it returns. -/
def process_all_seeds (env : Env) (seeds : List String) (destination : String)
    (amount : ℚ) : List String :=
  processAllAux env destination amount seeds.length 0 seeds

/-- The successive batch slices `seeds[i:i+batch_size]` taken by the loop of
`process_all_seeds`. -/
def chunksAux : ℕ → List String → List (List String)
  | 0, _ => []
  | _ + 1, [] => []
  | fuel + 1, s :: rest =>
    (s :: rest).take batch_size :: chunksAux fuel ((s :: rest).drop batch_size)

/-- The list of batches `process_all_seeds` processes, in processing order. -/
def batchSlices (seeds : List String) : List (List String) :=
  chunksAux seeds.length seeds

/-- Observable scheduling events of the batch loop: a batch of a given size
is processed, or `asyncio.sleep(TRANSACTION_DELAY_SECONDS)` runs. -/
inductive TraceEvent where
  | batchRun (size : ℕ)
  | interBatchSleep (seconds : ℚ)
deriving Repr, DecidableEq

/-- The event trace of the loop of `process_all_seeds`: each iteration
processes one slice and then sleeps the fixed delay (line 106 runs after
every batch, the last one included). -/
def traceAux : ℕ → List String → List TraceEvent
  | 0, _ => []
  | _ + 1, [] => []
  | fuel + 1, s :: rest =>
    TraceEvent.batchRun ((s :: rest).take batch_size).length
      :: TraceEvent.interBatchSleep TRANSACTION_DELAY_SECONDS
      :: traceAux fuel ((s :: rest).drop batch_size)

/-- The full event trace of one `process_all_seeds` run. -/
def allSeedsTrace (seeds : List String) : List TraceEvent :=
  traceAux seeds.length seeds

/-- The background loop task spawned by `start_loop`: whether it has exited,
and how many rounds (`process_all_seeds` invocations) it has started. -/
structure LoopTask where
  done : Bool
  rounds : ℕ
deriving Repr, DecidableEq

/-- The module-level state of `app/main.py`: the globals `loop_task` and
`stop_event` (the event modelled by its set flag), plus a count of tasks
created so far (`asyncio.create_task` calls).  The state holds at most one
task slot, so at most one loop session exists per process. -/
structure World where
  loopTask : Option LoopTask
  stopEvent : Option Bool
  spawned : ℕ
deriving Repr, DecidableEq

/-- Modelled from the spec: `loop_process_forever` is imported by
`app/main.py` from `app/pi_worker.py` but its definition is absent from the
source tree.  Per the spec the spawned task "repeatedly invokes
BatchScheduler.runAll with the same parameters in an unbounded loop,
checking the session's cancellation signal before each repetition — if
signaled, the loop task exits instead of starting another round."  This is
one such repetition, given the current value of the signal. -/
def loopIteration (signaled : Bool) (t : LoopTask) : LoopTask :=
  if t.done then t
  else if signaled then { t with done := true }
  else { t with rounds := t.rounds + 1 }

/-- `start_loop` (lines 48-56 of `app/main.py`): if a task exists and is not
done, report without touching the state; otherwise create a fresh event and
spawn a fresh loop task. -/
def start_loop (w : World) : World × String :=
  match w.loopTask with
  | some t =>
    if t.done then
      ({ loopTask := some { done := false, rounds := 0 }, stopEvent := some false,
         spawned := w.spawned + 1 }, "Continuous transfer started.")
    else
      (w, "Transfer already running.")
  | none =>
    ({ loopTask := some { done := false, rounds := 0 }, stopEvent := some false,
       spawned := w.spawned + 1 }, "Continuous transfer started.")

/-- `await loop_task` inside `stop_loop`: the awaited loop task runs to
completion.  With the cancellation signal set, its next check exits the loop
without starting another round (a round already in flight completes, which
does not change the count of started rounds).  If the signal were not set
the real `await` would never return; we leave the task unchanged in that
case, which is unreachable because the code creates the event together with
the task. -/
def awaitTask (signaled : Bool) (t : LoopTask) : LoopTask :=
  if t.done then t
  else if signaled then { t with done := true }
  else t

/-- `stop_loop` (lines 58-65 of `app/main.py`): set the event if one exists,
then await the task if one exists, then report. -/
def stop_loop (w : World) : World × String :=
  let ev : Option Bool := match w.stopEvent with
    | some _ => some true
    | none => none
  let tk : Option LoopTask := match w.loopTask with
    | some t => some (awaitTask (ev.getD false) t)
    | none => none
  ({ loopTask := tk, stopEvent := ev, spawned := w.spawned }, "Transfer stopped.")

/-- A run environment with a well-funded account and a ledger that accepts
the submission: every phase succeeds. -/
def envOK : Env where
  derive_keypair := fun s => .ok ("GPK" ++ s)
  account_call := fun _ => .ok ⟨[("native", 1000)]⟩
  fetch_account_and_fee := fun _ => .ok 100
  post_transactions := fun _ => .httpResp 200 (.ok ⟨some "abc123", "", "body"⟩)
  FEE_PERCENT := 0.01
  MINIMUM_BALANCE := 1

/-- A run environment whose account holds only 5 units of the native asset. -/
def envLow : Env where
  derive_keypair := fun s => .ok ("GLOW" ++ s)
  account_call := fun _ => .ok ⟨[("native", 5)]⟩
  fetch_account_and_fee := fun _ => .ok 100
  post_transactions := fun _ => .transportError "unused"
  FEE_PERCENT := 0.01
  MINIMUM_BALANCE := 1

/-- A run environment whose account record has no native-asset balance entry. -/
def envNoNative : Env where
  derive_keypair := fun s => .ok ("GNON" ++ s)
  account_call := fun _ => .ok ⟨[("credit_alphanum4", 50)]⟩
  fetch_account_and_fee := fun _ => .ok 100
  post_transactions := fun _ => .transportError "unused"
  FEE_PERCENT := 0.01
  MINIMUM_BALANCE := 1

/-- A run environment in which the ledger rejects the submitted transaction
with result codes, while every earlier phase succeeds. -/
def envSubmitFail : Env where
  derive_keypair := fun _ => .ok "GABCDE"
  account_call := fun _ => .ok ⟨[("native", 1000)]⟩
  fetch_account_and_fee := fun _ => .ok 100
  post_transactions := fun _ => .httpResp 400 (.ok ⟨none, "tx_failed", "raw"⟩)
  FEE_PERCENT := 0.01
  MINIMUM_BALANCE := 1

/-- A run environment in which the seed `"badseed"` is not a well-formed
credential, so its phase-1 coroutine raises out of the batch; the balance
query reports the account as not found, so no rational arithmetic is
involved for the other seeds. -/
def envCex : Env where
  derive_keypair := fun s => if s = "badseed" then .error "invalid seed" else .ok ("GOOD5" ++ s)
  account_call := fun _ => .notFound
  fetch_account_and_fee := fun _ => .ok 100
  post_transactions := fun _ => .transportError "unused"
  FEE_PERCENT := 0.01
  MINIMUM_BALANCE := 1

/-- A concrete 14-seed input list. -/
def seeds14 : List String :=
  ["s01", "s02", "s03", "s04", "s05", "s06", "s07",
   "s08", "s09", "s10", "s11", "s12", "s13", "s14"]

/-!  Theorems. -/

/-- C4: the net send amount embedded in a built transaction equals
`round(requestedAmount * (1 - feePercent), 7)` for every requested amount
and configured fee percentage, and in particular amount 10 with fee
percentage 0.01 yields a net amount of 9.9. -/
theorem net_amount_spec (env : Env) (seed destination : String) (amount : ℚ)
    (pk : String) (fee : ℤ)
    (hd : env.derive_keypair seed = .ok pk)
    (hg : gateCheck env pk amount = none)
    (hf : env.fetch_account_and_fee pk = .ok fee) :
    create_signed_transaction env seed destination amount =
      .ok (pk, some { source := pk, destination := destination,
                      amount := round7 (amount * (1 - env.FEE_PERCENT)),
                      memo := "PI Transfer", timeout := 30, baseFee := fee }, none)
    ∧ round7 ((10 : ℚ) * (1 - 0.01)) = 9.9 := by
  constructor
  · simp only [create_signed_transaction, hd, hg, hf]
    have harg : amount - amount * env.FEE_PERCENT = amount * (1 - env.FEE_PERCENT) := by ring
    rw [harg]
  · norm_num [round7, pyRound]

theorem net_amount_spec_witness :
    envOK.derive_keypair "seedA" = .ok "GPKseedA"
    ∧ gateCheck envOK "GPKseedA" 10 = none
    ∧ envOK.fetch_account_and_fee "GPKseedA" = .ok 100
    ∧ (create_signed_transaction envOK "seedA" "DEST" 10 =
        .ok ("GPKseedA", some { source := "GPKseedA", destination := "DEST",
                                amount := round7 (10 * (1 - envOK.FEE_PERCENT)),
                                memo := "PI Transfer", timeout := 30, baseFee := 100 },
             none)
      ∧ round7 ((10 : ℚ) * (1 - 0.01)) = 9.9) :=
  have hg : gateCheck envOK "GPKseedA" 10 = none := by
    norm_num [gateCheck, envOK, nativeBalance, estimated_fee]
  ⟨rfl, hg, rfl, net_amount_spec envOK "seedA" "DEST" 10 "GPKseedA" 100 rfl hg rfl⟩

/-- C9: the fee estimate of the balance gate is the hard-coded constant
0.00001; the gate's outcome is unchanged under any change of the
account/fee fetch used for building and of the submission endpoint, and for
an account whose balance query succeeds the gate rejects exactly when
`balance < amount + 0.00001 + MINIMUM_BALANCE`. -/
theorem gate_fee_constant (e : Env) (bf : String → Except String ℤ)
    (sr : SignedTx → SubmitResp) (pk : String) (amount : ℚ) (rec : AccountRecord)
    (hb : e.account_call pk = .ok rec) :
    estimated_fee = 0.00001
    ∧ gateCheck { e with fetch_account_and_fee := bf, post_transactions := sr } pk amount
        = gateCheck e pk amount
    ∧ (gateCheck e pk amount = some (insufficientMsg (nativeBalance rec.balances) amount)
        ↔ nativeBalance rec.balances < amount + 0.00001 + e.MINIMUM_BALANCE) := by
  refine ⟨rfl, rfl, ?_⟩
  by_cases h : nativeBalance rec.balances < amount + estimated_fee + e.MINIMUM_BALANCE
  · simp only [gateCheck, hb, if_pos h, true_iff]
    exact (by simpa [estimated_fee] using h)
  · simp only [gateCheck, hb, if_neg h]
    constructor
    · intro hcontra
      exact absurd hcontra (by simp)
    · intro hlt
      exact absurd (by simpa [estimated_fee] using hlt) h

theorem gate_fee_constant_witness :
    envOK.account_call "GPKseedA" = .ok ⟨[("native", 1000)]⟩
    ∧ (estimated_fee = 0.00001
      ∧ gateCheck { envOK with fetch_account_and_fee := fun _ => .error "down",
                               post_transactions := fun _ => .transportError "down" }
            "GPKseedA" 10
          = gateCheck envOK "GPKseedA" 10
      ∧ (gateCheck envOK "GPKseedA" 10
            = some (insufficientMsg (nativeBalance [("native", 1000)]) 10)
          ↔ nativeBalance [("native", 1000)] < 10 + 0.00001 + envOK.MINIMUM_BALANCE)) :=
  ⟨rfl, gate_fee_constant envOK (fun _ => .error "down") (fun _ => .transportError "down")
    "GPKseedA" 10 ⟨[("native", 1000)]⟩ rfl⟩

/-- C5: for a seed whose balance query succeeds and whose build environment
is healthy, the gate reports the insufficient-balance failure exactly when
`balance < amount + estimated_fee + MINIMUM_BALANCE`, and a seed stopped by
the gate is a no-op in phase 2 (no submission attempt). -/
theorem balance_gate_iff (env : Env) (seed destination : String) (amount : ℚ)
    (pk : String) (rec : AccountRecord) (fee : ℤ)
    (hd : env.derive_keypair seed = .ok pk)
    (hb : env.account_call pk = .ok rec)
    (hf : env.fetch_account_and_fee pk = .ok fee) :
    (create_signed_transaction env seed destination amount
        = .ok (pk, none, some (insufficientMsg (nativeBalance rec.balances) amount))
      ↔ nativeBalance rec.balances < amount + estimated_fee + env.MINIMUM_BALANCE)
    ∧ phase2 env [(pk, none, some (insufficientMsg (nativeBalance rec.balances) amount))]
        = [none] := by
  refine ⟨?_, rfl⟩
  by_cases h : nativeBalance rec.balances < amount + estimated_fee + env.MINIMUM_BALANCE
  · simp [create_signed_transaction, hd, gateCheck, hb, if_pos h, h]
  · simp [create_signed_transaction, hd, gateCheck, hb, if_neg h, hf, h]

theorem balance_gate_iff_witness :
    envLow.derive_keypair "seedL" = .ok "GLOWseedL"
    ∧ envLow.account_call "GLOWseedL" = .ok ⟨[("native", 5)]⟩
    ∧ envLow.fetch_account_and_fee "GLOWseedL" = .ok 100
    ∧ ((create_signed_transaction envLow "seedL" "DEST" 10
          = .ok ("GLOWseedL", none,
              some (insufficientMsg (nativeBalance [("native", 5)]) 10))
        ↔ nativeBalance [("native", 5)] < 10 + estimated_fee + envLow.MINIMUM_BALANCE)
      ∧ phase2 envLow
          [("GLOWseedL", none, some (insufficientMsg (nativeBalance [("native", 5)]) 10))]
          = [none])
    ∧ nativeBalance [("native", 5)] < 10 + estimated_fee + envLow.MINIMUM_BALANCE :=
  ⟨rfl, rfl, rfl,
    balance_gate_iff envLow "seedL" "DEST" 10 "GLOWseedL" ⟨[("native", 5)]⟩ 100 rfl rfl rfl,
    by norm_num [nativeBalance, estimated_fee, envLow]⟩

/-- C10: when the account record has no balance entry of the native asset
type, the balance defaults to 0 without raising, and for every positive
requested amount (with a nonnegative configured reserve) the seed is
reported as an insufficient-balance failure and is skipped in phase 2. -/
theorem no_native_entry_defaults_zero (env : Env) (seed destination : String)
    (amount : ℚ) (pk : String) (rec : AccountRecord)
    (hd : env.derive_keypair seed = .ok pk)
    (hb : env.account_call pk = .ok rec)
    (hn : ∀ b ∈ rec.balances, b.1 ≠ "native")
    (hamt : 0 < amount) (hmin : 0 ≤ env.MINIMUM_BALANCE) :
    nativeBalance rec.balances = 0
    ∧ create_signed_transaction env seed destination amount
        = .ok (pk, none, some (insufficientMsg 0 amount))
    ∧ phase2 env [(pk, none, some (insufficientMsg 0 amount))] = [none] := by
  have hfind : rec.balances.find? (fun b => b.1 == "native") = none := by
    refine List.find?_eq_none.mpr ?_
    intro b hbmem
    simpa using hn b hbmem
  have hzero : nativeBalance rec.balances = 0 := by
    simp [nativeBalance, hfind]
  have hlt : nativeBalance rec.balances < amount + estimated_fee + env.MINIMUM_BALANCE := by
    rw [hzero]
    have hfee : (0 : ℚ) < estimated_fee := by norm_num [estimated_fee]
    linarith
  have hlt0 : (0 : ℚ) < amount + estimated_fee + env.MINIMUM_BALANCE := hzero ▸ hlt
  refine ⟨hzero, ?_, rfl⟩
  simp [create_signed_transaction, hd, gateCheck, hb, hzero, if_pos hlt0]

theorem no_native_entry_defaults_zero_witness :
    envNoNative.derive_keypair "seedN" = .ok "GNONseedN"
    ∧ envNoNative.account_call "GNONseedN" = .ok ⟨[("credit_alphanum4", 50)]⟩
    ∧ (∀ b ∈ [(("credit_alphanum4" : String), (50 : ℚ))], b.1 ≠ "native")
    ∧ (0 : ℚ) < 10 ∧ (0 : ℚ) ≤ envNoNative.MINIMUM_BALANCE
    ∧ (nativeBalance [("credit_alphanum4", 50)] = 0
      ∧ create_signed_transaction envNoNative "seedN" "DEST" 10
          = .ok ("GNONseedN", none, some (insufficientMsg 0 10))
      ∧ phase2 envNoNative [("GNONseedN", none, some (insufficientMsg 0 10))] = [none]) :=
  ⟨rfl, rfl, by decide, by decide, by norm_num [envNoNative],
    no_native_entry_defaults_zero envNoNative "seedN" "DEST" 10 "GNONseedN"
      ⟨[("credit_alphanum4", 50)]⟩ rfl rfl (by decide) (by decide)
      (by norm_num [envNoNative])⟩

/-- C2 (counterexample): an HTTP 200 response whose body lacks the `hash`
field is classified under the `Success` prefix (with an incomplete-response
note), not as a Failure, refuting the claim as stated. -/
theorem submit_incomplete_counterexample :
    submit_transaction (.httpResp 200 (.ok ⟨none, "", "rawbody"⟩))
      = "Success: incomplete response rawbody"
    ∧ ("Success: incomplete response rawbody").take 7 = "Success"
    ∧ ("Success: incomplete response rawbody").take 7 ≠ "Failed:" := by
  refine ⟨rfl, rfl, ?_⟩
  decide

/-- C2 (amended): for every submission whose HTTP response has status 200
but whose body lacks the `hash` field, `submit_transaction` returns the
string `"Success: incomplete response "` followed by the raw body — a
Success-prefixed outcome with an incomplete-response note. -/
theorem submit_incomplete_is_success_tagged (b : SubmitBody) (h : b.hash = none) :
    submit_transaction (.httpResp 200 (.ok b)) = "Success: incomplete response " ++ b.raw := by
  simp [submit_transaction, h]

theorem submit_incomplete_is_success_tagged_witness :
    (⟨none, "", "rawtwo"⟩ : SubmitBody).hash = none
    ∧ submit_transaction (.httpResp 200 (.ok ⟨none, "", "rawtwo"⟩))
        = "Success: incomplete response " ++ (⟨none, "", "rawtwo"⟩ : SubmitBody).raw :=
  ⟨rfl, submit_incomplete_is_success_tagged ⟨none, "", "rawtwo"⟩ rfl⟩

/-- C3 (counterexample): a seed whose phase-2 submission is rejected by the
ledger (`"Failed: tx_failed"`) still yields a merged result under the
`Success for` tag, refuting the claim as stated. -/
theorem success_tag_despite_failed_submission :
    process_batch envSubmitFail ["s1"] "DEST" 10
      = .ok ["Success for GABCD...: Failed: tx_failed"]
    ∧ submit_transaction (envSubmitFail.post_transactions
        { source := "GABCDE", destination := "DEST", amount := round7 (10 - 10 * 0.01),
          memo := "PI Transfer", timeout := 30, baseFee := 100 })
        = "Failed: tx_failed"
    ∧ ("Success for GABCD...: Failed: tx_failed").take 7 = "Success" := by
  have h1 : create_signed_transaction envSubmitFail "s1" "DEST" 10
      = .ok ("GABCDE", some { source := "GABCDE", destination := "DEST",
                              amount := round7 (10 - 10 * 0.01), memo := "PI Transfer",
                              timeout := 30, baseFee := 100 }, none) := by
    norm_num [create_signed_transaction, envSubmitFail, gateCheck, nativeBalance,
              estimated_fee]
  refine ⟨?_, rfl, rfl⟩
  simp only [process_batch, List.map_cons, List.map_nil, h1]
  rfl

/-- C3 (amended): the fan-in step tags a merged per-seed result `Success for`
exactly when phase 1 produced a signed transaction; the phase-2 submission's
outcome string — which may itself denote a failure — is appended verbatim
after the tag, while phase-1 failures yield `Error for` results. -/
theorem mergeResult_tags (env : Env) (pk e : String) (tx : SignedTx)
    (otx : Option SignedTx) :
    mergeResult env (pk, some tx, none)
      = "Success for " ++ pk.take 5 ++ "...: "
          ++ submit_transaction (env.post_transactions tx)
    ∧ mergeResult env (pk, otx, some e)
      = "Error for " ++ pk.take 5 ++ "...: " ++ e := by
  constructor
  · rfl
  · cases otx <;> rfl

/-- C7: calling `start_loop` while the loop task exists and is not done
returns the "already running" report and leaves the module state — the
single task slot and the count of spawned tasks — unchanged, so no second
session is created and no additional task is spawned.  (The state holds at
most one task slot, so at most one loop session is active per process.) -/
theorem start_already_running (w : World) (t : LoopTask)
    (h : w.loopTask = some t) (hrun : t.done = false) :
    start_loop w = (w, "Transfer already running.")
    ∧ (start_loop w).1.spawned = w.spawned
    ∧ (start_loop w).1.loopTask = some t := by
  have heq : start_loop w = (w, "Transfer already running.") := by
    simp [start_loop, h, hrun]
  exact ⟨heq, by rw [heq], by rw [heq, h]⟩

theorem start_already_running_witness :
    (⟨some ⟨false, 2⟩, some false, 1⟩ : World).loopTask = some ⟨false, 2⟩
    ∧ (⟨false, 2⟩ : LoopTask).done = false
    ∧ (start_loop ⟨some ⟨false, 2⟩, some false, 1⟩
        = (⟨some ⟨false, 2⟩, some false, 1⟩, "Transfer already running.")
      ∧ (start_loop ⟨some ⟨false, 2⟩, some false, 1⟩).1.spawned
          = (⟨some ⟨false, 2⟩, some false, 1⟩ : World).spawned
      ∧ (start_loop ⟨some ⟨false, 2⟩, some false, 1⟩).1.loopTask = some ⟨false, 2⟩) :=
  ⟨rfl, rfl, start_already_running ⟨some ⟨false, 2⟩, some false, 1⟩ ⟨false, 2⟩ rfl rfl⟩

/-- C8: provided a session's event exists whenever its task does (which the
code guarantees by creating them together), after `stop_loop` returns the
loop task has observed the signal and exited; an exited loop task never
starts another round under any further scheduling; and `stop_loop` is a
no-op on the state when no session is active. -/
theorem stop_quiesces (w : World)
    (hinv : w.loopTask.isSome = true → w.stopEvent.isSome = true) :
    (∀ t, (stop_loop w).1.loopTask = some t → t.done = true)
    ∧ (∀ (s : Bool) (n : ℕ) (t : LoopTask), t.done = true →
        ((loopIteration s)^[n] t).done = true
        ∧ ((loopIteration s)^[n] t).rounds = t.rounds)
    ∧ (w.loopTask = none → w.stopEvent = none → (stop_loop w).1 = w) := by
  refine ⟨?_, ?_, ?_⟩
  · intro t ht
    cases hw : w.loopTask with
    | none => simp [stop_loop, hw] at ht
    | some t0 =>
      have hev : w.stopEvent.isSome = true := hinv (by simp [hw])
      cases he : w.stopEvent with
      | none => simp [he] at hev
      | some b =>
        simp only [stop_loop, hw, he] at ht
        have ht' : awaitTask true t0 = t := by
          simpa using ht
        rw [← ht']
        by_cases hd : t0.done = true
        · simp [awaitTask, hd]
        · simp [awaitTask, hd]
  · intro s n
    induction n with
    | zero =>
      intro t ht
      simp only [Function.iterate_zero_apply]
      exact ⟨ht, trivial⟩
    | succ k ih =>
      intro t ht
      have hk := ih t ht
      rw [Function.iterate_succ_apply']
      constructor
      · simp [loopIteration, hk.1]
      · simp [loopIteration, hk.1, hk.2]
  · intro h1 h2
    cases w with
    | mk lt ev sp =>
      simp at h1 h2
      subst h1; subst h2
      rfl

theorem stop_quiesces_witness :
    ((⟨some ⟨false, 3⟩, some false, 1⟩ : World).loopTask.isSome = true →
      (⟨some ⟨false, 3⟩, some false, 1⟩ : World).stopEvent.isSome = true)
    ∧ ((∀ t, (stop_loop ⟨some ⟨false, 3⟩, some false, 1⟩).1.loopTask = some t →
          t.done = true)
      ∧ (∀ (s : Bool) (n : ℕ) (t : LoopTask), t.done = true →
          ((loopIteration s)^[n] t).done = true
          ∧ ((loopIteration s)^[n] t).rounds = t.rounds)
      ∧ ((⟨some ⟨false, 3⟩, some false, 1⟩ : World).loopTask = none →
          (⟨some ⟨false, 3⟩, some false, 1⟩ : World).stopEvent = none →
          (stop_loop ⟨some ⟨false, 3⟩, some false, 1⟩).1
            = ⟨some ⟨false, 3⟩, some false, 1⟩)) :=
  ⟨fun _ => rfl, stop_quiesces ⟨some ⟨false, 3⟩, some false, 1⟩ (fun _ => rfl)⟩

theorem gather_ok (l : List (Except String Triple))
    (h : ∀ x ∈ l, x.isOk = true) :
    gather l = .ok (l.map (fun x => x.toOption.getD ("", none, none))) := by
  induction l with
  | nil => rfl
  | cons x rest ih =>
    cases x with
    | error e =>
      have := h _ (List.mem_cons_self _ _)
      simp [Except.isOk, Except.toBool] at this
    | ok t =>
      have hrest := ih (fun y hy => h y (List.mem_cons_of_mem _ hy))
      simp [gather, hrest, Except.toOption]

theorem fanIn_phase2 (env : Env) (signed : List Triple) :
    fanIn (signed.zip (phase2 env signed)) = signed.map (mergeResult env) := by
  induction signed with
  | nil => rfl
  | cons t ts ih =>
    obtain ⟨pk, otx, oerr⟩ := t
    cases oerr with
    | some e => simpa [fanIn, phase2, mergeResult] using ih
    | none =>
      cases otx with
      | some tx => simpa [fanIn, phase2, mergeResult] using ih
      | none => simpa [fanIn, phase2, mergeResult] using ih

theorem process_batch_ok (env : Env) (destination : String) (amount : ℚ)
    (batch : List String)
    (h : ∀ s ∈ batch, (create_signed_transaction env s destination amount).isOk = true) :
    process_batch env batch destination amount
      = .ok (batch.map (fun s => (seedOutcome env destination amount s).getD "")) := by
  have hg : gather (batch.map fun s => create_signed_transaction env s destination amount)
      = .ok ((batch.map fun s => create_signed_transaction env s destination amount).map
          (fun x => x.toOption.getD ("", none, none))) := by
    apply gather_ok
    intro x hx
    obtain ⟨s, hs, rfl⟩ := List.mem_map.mp hx
    exact h s hs
  simp only [process_batch, hg, fanIn_phase2, List.map_map]
  congr 1
  apply List.map_congr_left
  intro s hs
  have hok := h s hs
  cases hc : create_signed_transaction env s destination amount with
  | error e => rw [hc] at hok; simp [Except.isOk, Except.toBool] at hok
  | ok t => simp [Function.comp, hc, Except.toOption, seedOutcome]

theorem batchResult_ok (env : Env) (destination : String) (amount : ℚ)
    (bIdx : ℕ) (batch : List String)
    (h : ∀ s ∈ batch, (create_signed_transaction env s destination amount).isOk = true) :
    batchResult env destination amount bIdx batch
      = batch.map (fun s => (seedOutcome env destination amount s).getD "") := by
  simp only [batchResult, process_batch_ok env destination amount batch h]

theorem processAllAux_ok (env : Env) (destination : String) (amount : ℚ) :
    ∀ (fuel bIdx : ℕ) (l : List String), l.length ≤ fuel →
      (∀ s ∈ l, (create_signed_transaction env s destination amount).isOk = true) →
      processAllAux env destination amount fuel bIdx l
        = l.map (fun s => (seedOutcome env destination amount s).getD "") := by
  intro fuel
  induction fuel with
  | zero =>
    intro bIdx l hlen _
    have hnil : l = [] := List.eq_nil_of_length_eq_zero (Nat.le_zero.mp hlen)
    subst hnil; rfl
  | succ k ih =>
    intro bIdx l hlen h
    cases l with
    | nil => rfl
    | cons s rest =>
      have hbatch : ∀ x ∈ (s :: rest).take batch_size,
          (create_signed_transaction env x destination amount).isOk = true :=
        fun x hx => h x (List.take_subset _ _ hx)
      have hdrop : ∀ x ∈ (s :: rest).drop batch_size,
          (create_signed_transaction env x destination amount).isOk = true :=
        fun x hx => h x (List.drop_subset _ _ hx)
      have hdlen : ((s :: rest).drop batch_size).length ≤ k := by
        simp only [List.length_drop, List.length_cons] at hlen ⊢
        simp only [batch_size]
        omega
      simp only [processAllAux]
      rw [batchResult_ok env destination amount bIdx _ hbatch,
          ih (bIdx + 1) _ hdlen hdrop, ← List.map_append, List.take_append_drop]

/-- C1 (amended): for every seed list, as long as no per-seed phase-1
coroutine raises (so no batch raises an unexpected error), the result list
of `process_all_seeds` maps each seed, in input order, to its own outcome —
hence one entry per seed with `results[i]` the outcome of `seeds[i]`,
independent of any completion timing (the fan-in zips by index). -/
theorem results_align_when_no_batch_raises (env : Env) (destination : String)
    (amount : ℚ) (seeds : List String)
    (h : ∀ s ∈ seeds, (create_signed_transaction env s destination amount).isOk = true) :
    process_all_seeds env seeds destination amount
      = seeds.map (fun s => (seedOutcome env destination amount s).getD "")
    ∧ (process_all_seeds env seeds destination amount).length = seeds.length := by
  have heq : process_all_seeds env seeds destination amount
      = seeds.map (fun s => (seedOutcome env destination amount s).getD "") := by
    simp only [process_all_seeds]
    exact processAllAux_ok env destination amount seeds.length 0 seeds le_rfl h
  exact ⟨heq, by rw [heq, List.length_map]⟩

theorem results_align_witness :
    (∀ s ∈ (["sA"] : List String),
      (create_signed_transaction envOK s "DEST" 10).isOk = true)
    ∧ (process_all_seeds envOK ["sA"] "DEST" 10
        = (["sA"] : List String).map (fun s => (seedOutcome envOK "DEST" 10 s).getD "")
      ∧ (process_all_seeds envOK ["sA"] "DEST" 10).length
          = (["sA"] : List String).length) := by
  have hA : (create_signed_transaction envOK "sA" "DEST" 10).isOk = true := by
    norm_num [create_signed_transaction, envOK, gateCheck, nativeBalance,
              estimated_fee, Except.isOk, Except.toBool]
  have h : ∀ s ∈ (["sA"] : List String),
      (create_signed_transaction envOK s "DEST" 10).isOk = true := by
    intro s hs
    simp only [List.mem_singleton] at hs
    subst hs
    exact hA
  exact ⟨h, results_align_when_no_batch_raises envOK "DEST" 10 ["sA"] h⟩

/-- C1 (counterexample): in a run where a batch raises (here the second
seed's key derivation fails, outside any `try`), `process_all_seeds`
records a single synthetic entry for the whole batch, so the result list
is shorter than the seed list, refuting the claim as stated. -/
theorem results_shrink_on_batch_error :
    process_all_seeds envCex ["goodseed", "badseed"] "DEST" 10
      = ["Batch 1 failed: invalid seed"]
    ∧ (process_all_seeds envCex ["goodseed", "badseed"] "DEST" 10).length = 1
    ∧ (["goodseed", "badseed"] : List String).length = 2 :=
  ⟨rfl, rfl, rfl⟩

theorem chunksAux_step (fuel : ℕ) (l : List String) (h : l ≠ []) :
    chunksAux (fuel + 1) l = l.take batch_size :: chunksAux fuel (l.drop batch_size) := by
  cases l with
  | nil => exact absurd rfl h
  | cons s rest => rfl

theorem processAllAux_step (env : Env) (destination : String) (amount : ℚ)
    (fuel bIdx : ℕ) (l : List String) (h : l ≠ []) :
    processAllAux env destination amount (fuel + 1) bIdx l
      = batchResult env destination amount bIdx (l.take batch_size)
        ++ processAllAux env destination amount fuel (bIdx + 1) (l.drop batch_size) := by
  cases l with
  | nil => exact absurd rfl h
  | cons s rest => rfl

theorem traceAux_step (fuel : ℕ) (l : List String) (h : l ≠ []) :
    traceAux (fuel + 1) l
      = TraceEvent.batchRun (l.take batch_size).length
        :: TraceEvent.interBatchSleep TRANSACTION_DELAY_SECONDS
        :: traceAux fuel (l.drop batch_size) := by
  cases l with
  | nil => exact absurd rfl h
  | cons s rest => rfl

/-- C6: `process_all_seeds` partitions the seed list into consecutive
contiguous batches of the fixed size 6, processed sequentially in input
order; 14 seeds give exactly the three slices of sizes 6, 6 and 2, whose
concatenation is the seed list, the overall result is the in-order
concatenation of the three batch results, and the loop's trace interleaves
the fixed 0.1-second delay after each batch completion. -/
theorem fourteen_seeds_three_batches (env : Env) (destination : String) (amount : ℚ)
    (seeds : List String) (h : seeds.length = 14) :
    batch_size = 6
    ∧ TRANSACTION_DELAY_SECONDS = 0.1
    ∧ batchSlices seeds
        = [seeds.take batch_size, (seeds.drop batch_size).take batch_size,
           (seeds.drop batch_size).drop batch_size]
    ∧ (batchSlices seeds).map List.length = [6, 6, 2]
    ∧ (batchSlices seeds).flatten = seeds
    ∧ process_all_seeds env seeds destination amount
        = batchResult env destination amount 0 (seeds.take batch_size)
          ++ (batchResult env destination amount 1 ((seeds.drop batch_size).take batch_size)
            ++ batchResult env destination amount 2 ((seeds.drop batch_size).drop batch_size))
    ∧ allSeedsTrace seeds
        = [TraceEvent.batchRun 6, TraceEvent.interBatchSleep TRANSACTION_DELAY_SECONDS,
           TraceEvent.batchRun 6, TraceEvent.interBatchSleep TRANSACTION_DELAY_SECONDS,
           TraceEvent.batchRun 2, TraceEvent.interBatchSleep TRANSACTION_DELAY_SECONDS] := by
  have hbs : batch_size = 6 := rfl
  have hlen2 : (seeds.drop batch_size).length = 8 := by
    rw [List.length_drop, h, hbs]
  have hlen3 : ((seeds.drop batch_size).drop batch_size).length = 2 := by
    rw [List.length_drop, hlen2, hbs]
  have hne1 : seeds ≠ [] := List.ne_nil_of_length_pos (by omega)
  have hne2 : seeds.drop batch_size ≠ [] := List.ne_nil_of_length_pos (by omega)
  have hne3 : (seeds.drop batch_size).drop batch_size ≠ [] :=
    List.ne_nil_of_length_pos (by omega)
  have htake1 : (seeds.take batch_size).length = 6 := by
    rw [List.length_take, h, hbs]; omega
  have htake2 : ((seeds.drop batch_size).take batch_size).length = 6 := by
    rw [List.length_take, hlen2, hbs]; omega
  have htake3 : ((seeds.drop batch_size).drop batch_size).take batch_size
      = (seeds.drop batch_size).drop batch_size :=
    List.take_of_length_le (by omega)
  have hdrop3 : ((seeds.drop batch_size).drop batch_size).drop batch_size = [] := by
    have : (((seeds.drop batch_size).drop batch_size).drop batch_size).length = 0 := by
      rw [List.length_drop, hlen3, hbs]
    exact List.eq_nil_of_length_eq_zero this
  have h14 : seeds.length = 13 + 1 := by omega
  have h13 : (13 : ℕ) = 12 + 1 := rfl
  have h12 : (12 : ℕ) = 11 + 1 := rfl
  have hslices : batchSlices seeds
      = [seeds.take batch_size, (seeds.drop batch_size).take batch_size,
         (seeds.drop batch_size).drop batch_size] := by
    simp only [batchSlices]
    rw [h14, chunksAux_step _ _ hne1, h13, chunksAux_step _ _ hne2,
        h12, chunksAux_step _ _ hne3, htake3, hdrop3]
    rfl
  refine ⟨rfl, rfl, hslices, ?_, ?_, ?_, ?_⟩
  · rw [hslices]
    simp only [List.map_cons, List.map_nil]
    rw [htake1, htake2, hlen3]
  · rw [hslices]
    show seeds.take batch_size
        ++ ((seeds.drop batch_size).take batch_size
          ++ ((seeds.drop batch_size).drop batch_size ++ [])) = seeds
    rw [List.append_nil, List.take_append_drop, List.take_append_drop]
  · simp only [process_all_seeds]
    rw [h14, processAllAux_step _ _ _ _ _ _ hne1, h13,
        processAllAux_step _ _ _ _ _ _ hne2, h12,
        processAllAux_step _ _ _ _ _ _ hne3, htake3, hdrop3]
    have hnil : processAllAux env destination amount 11 3 ([] : List String) = [] := rfl
    rw [hnil, List.append_nil]
  · simp only [allSeedsTrace]
    rw [h14, traceAux_step _ _ hne1, h13, traceAux_step _ _ hne2, h12,
        traceAux_step _ _ hne3, htake1, htake2, htake3, hlen3, hdrop3]
    have hnil : traceAux 11 ([] : List String) = [] := rfl
    rw [hnil]

theorem fourteen_seeds_three_batches_witness :
    seeds14.length = 14
    ∧ (batch_size = 6
      ∧ TRANSACTION_DELAY_SECONDS = 0.1
      ∧ batchSlices seeds14
          = [seeds14.take batch_size, (seeds14.drop batch_size).take batch_size,
             (seeds14.drop batch_size).drop batch_size]
      ∧ (batchSlices seeds14).map List.length = [6, 6, 2]
      ∧ (batchSlices seeds14).flatten = seeds14
      ∧ process_all_seeds envOK seeds14 "DEST" 10
          = batchResult envOK "DEST" 10 0 (seeds14.take batch_size)
            ++ (batchResult envOK "DEST" 10 1 ((seeds14.drop batch_size).take batch_size)
              ++ batchResult envOK "DEST" 10 2 ((seeds14.drop batch_size).drop batch_size))
      ∧ allSeedsTrace seeds14
          = [TraceEvent.batchRun 6, TraceEvent.interBatchSleep TRANSACTION_DELAY_SECONDS,
             TraceEvent.batchRun 6, TraceEvent.interBatchSleep TRANSACTION_DELAY_SECONDS,
             TraceEvent.batchRun 2,
             TraceEvent.interBatchSleep TRANSACTION_DELAY_SECONDS]) :=
  ⟨rfl, fourteen_seeds_three_batches envOK "DEST" 10 seeds14 rfl⟩

end PiB
